import Mathlib

/-!
Verification development for the x402-go payment facilitator.

This file shallowly embeds the verification/settlement engine of the
repository (the EVM provider's `Verify` and `Settle` pipelines, the
nonce store, the chain registry's USDC deployments, the facilitator's
`Supported` enumeration and the HTTP adapter's error mapping) and proves
the spec's claims about them.

Modelling conventions:
* Go `uint64` / `int64` values are `Nat` / `Int` with explicit bounds and
  wraparound where the code can overflow.
* `common.Address` values are carried as their `.Hex()` rendering (an
  EIP-55 checksummed `0x`-prefixed 40-hex-digit string); the concrete
  addresses appearing below are the checksummed literals from the source.
  Concrete test addresses use digits only, so checksum casing is moot.
* The Keccak/secp256k1 parts of signature checking (EIP-712 `HashStruct`
  and `crypto.SigToPub`) are abstracted as environment oracles: hashing
  may fail (as `apitypes.HashStruct` does on malformed message fields) and
  recovery maps the 65 normalized signature bytes to an address or an
  error, for the fixed digest of the call.  Everything after those two
  calls (hex decode, length check, `v` normalization, case-insensitive
  address comparison) is embedded exactly.
* RPC effects (`balanceOf` probe, broadcast, `WaitMined`) are environment
  observations, as the spec's purity claims phrase them.
-/

deriving instance DecidableEq for Except

/-- Decimal digit of a character, as `strconv`'s base-10 loop sees it. -/
def decDigit (c : Char) : Option Nat :=
  if '0' ≤ c ∧ c ≤ '9' then some (c.toNat - '0'.toNat) else none

/-- Accumulating base-10 scan over a character list (no sign, no underscores,
the whole list must be digits), mirroring `strconv.ParseUint`'s digit loop
and `math/big`'s base-10 mantissa scan. -/
def parseDecCore : List Char → Nat → Option Nat
  | [], acc => some acc
  | c :: cs, acc =>
    match decDigit c with
    | none => none
    | some d => parseDecCore cs (acc * 10 + d)

/-- `strconv.ParseUint(s, 10, 64)`: nonempty, digits only, value `< 2^64`;
no sign prefix is permitted. -/
def parseUint64 (s : String) : Option Nat :=
  match s.data with
  | [] => none
  | c :: cs =>
    match parseDecCore (c :: cs) 0 with
    | none => none
    | some n => if n < 2 ^ 64 then some n else none

/-- `new(big.Int).SetString(s, 10)`: an optional leading `+`/`-` sign
followed by a nonempty base-10 digit string (underscores are only accepted
at base 0, so not here). -/
def parseBigInt (s : String) : Option Int :=
  match s.data with
  | [] => none
  | '-' :: cs =>
    match cs with
    | [] => none
    | _ => (parseDecCore cs 0).map (fun n => -(n : Int))
  | '+' :: cs =>
    match cs with
    | [] => none
    | _ => (parseDecCore cs 0).map (fun n => (n : Int))
  | c :: cs => (parseDecCore (c :: cs) 0).map (fun n => (n : Int))

/-- Value of a hexadecimal digit, upper or lower case. -/
def hexDigit (c : Char) : Option Nat :=
  if '0' ≤ c ∧ c ≤ '9' then some (c.toNat - '0'.toNat)
  else if 'a' ≤ c ∧ c ≤ 'f' then some (c.toNat - 'a'.toNat + 10)
  else if 'A' ≤ c ∧ c ≤ 'F' then some (c.toNat - 'A'.toNat + 10)
  else none

/-- `encoding/hex.DecodeString` over a character list: even length, every
character a hex digit, two characters per output byte. -/
def hexDecodeCore : List Char → Option (List Nat)
  | [] => some []
  | [_] => none
  | a :: b :: rest =>
    match hexDigit a, hexDigit b, hexDecodeCore rest with
    | some x, some y, some r => some ((x * 16 + y) :: r)
    | _, _, _ => none

/-- `encoding/hex.DecodeString` on a string, yielding bytes. -/
def hexDecode (s : String) : Option (List Nat) :=
  hexDecodeCore s.data

/-- `strings.TrimPrefix(s, "0x")`: drop a leading `0x` if present. -/
def trim0x (s : String) : String :=
  match s.data with
  | '0' :: 'x' :: rest => ⟨rest⟩
  | _ => s

/-- `strings.ToLower` restricted to ASCII, which is all that hex address
strings contain. -/
def asciiLower (s : String) : String := ⟨s.data.map Char.toLower⟩

/-- `strings.EqualFold` on ASCII strings: case-insensitive equality. -/
def eqFold (a b : String) : Bool := asciiLower a == asciiLower b

/-- `types.MixedAddress`: a tagged address. -/
structure MixedAddress where
  type_ : String
  address : String
deriving DecidableEq, Repr

/-- `types.NewEvmAddress`: tag an EVM address (`.Hex()` form). -/
def NewEvmAddress (addr : String) : MixedAddress := ⟨"evm", addr⟩

/-- The reason attached to an in-envelope verification rejection.  Each
constructor corresponds to one `return` site of `Provider.Verify` (or to
the handler's rendering of a `FacilitatorError`), carrying the data the
code interpolates into the message. -/
inductive VReason where
  | receiverMismatch (expected actual : String)
  | unsupportedAsset (asset : String)
  | invalidWindow (validBefore validAfter : Nat)
  | notYetValid (validAfter : String) (now : Nat)
  | expired (validBefore : String) (now : Nat)
  | windowTooLong (window maxTimeout : Nat)
  | nonceReplay
  | invalidValueFormat
  | insufficientValue
  | sigVerifyError (msg : String)
  | invalidSignature
  | balanceCheckFailed (msg : String)
  | insufficientFunds
  | decodingRequiredAmount
deriving DecidableEq, Repr

/-- The Go `error` values `Provider.Verify` can return alongside a `nil`
response: two plain `fmt.Errorf` errors for unparseable timestamps, and
one `*types.FacilitatorError` (a `DecodingError`) for an unparseable
`maxAmountRequired`. -/
inductive GoErr where
  | invalidValidAfter (s : String)
  | invalidValidBefore (s : String)
  | facDecodingRequiredAmount
deriving DecidableEq, Repr

/-- The HTTP adapter's `*types.FacilitatorError` type test. -/
def GoErr.isFacilitatorError : GoErr → Bool
  | .facDecodingRequiredAmount => true
  | _ => false

/-- `types.VerifyResponse`. -/
structure VerifyResponse where
  isValid : Bool
  payer : Option MixedAddress
  reason : Option VReason
deriving DecidableEq, Repr

/-- Build the `isValid:false` response the provider returns at a rejection. -/
def invalidResp (r : VReason) (payer : MixedAddress) : VerifyResponse :=
  { isValid := false, payer := some payer, reason := some r }

/-- `types.Network`: the closed enumeration of chain names. -/
inductive Network where
  | baseSepolia | base | avalancheFuji | avalanche
  | polygonAmoy | polygon | sei | seiTestnet | xdc
  | solana | solanaDevnet
deriving DecidableEq, Repr

/-- `types.ExactEvmPayloadAuthorization`; address fields carry their
`.Hex()` rendering, the rest are the raw wire strings. -/
structure Authorization where
  fromAddr : String
  toAddr : String
  value : String
  validAfter : String
  validBefore : String
  nonce : String
deriving DecidableEq, Repr

/-- `types.ExactEvmPayload`. -/
structure ExactEvmPayload where
  signature : String
  authorization : Authorization
deriving DecidableEq, Repr

/-- `types.PaymentPayload`. -/
structure PaymentPayload where
  x402Version : Int
  scheme : String
  network : Network
  payload : ExactEvmPayload
deriving DecidableEq, Repr

/-- `types.PaymentRequirements` (descriptive fields the engine never
reads are omitted). -/
structure PaymentRequirements where
  scheme : String
  network : Network
  payTo : String
  maxAmountRequired : String
  maxTimeoutSeconds : Int
  asset : String
deriving DecidableEq, Repr

/-- `types.VerifyRequest`. -/
structure VerifyRequest where
  paymentPayload : PaymentPayload
  paymentRequirements : PaymentRequirements
deriving DecidableEq, Repr

/-- `types.SettleRequest` (same body minus the top-level version). -/
structure SettleRequest where
  paymentPayload : PaymentPayload
  paymentRequirements : PaymentRequirements
deriving DecidableEq, Repr

/-- `evm.NonceEntry`: insertion time and expiry, in Unix seconds. -/
structure NonceEntry where
  firstSeen : Int
  expiresAt : Int
deriving DecidableEq, Repr

/-- The nonce store's map, as an association list whose first match wins
(so prepending is map assignment).  Keys are the raw concatenated strings
the code builds. -/
abbrev NonceStore := List (String × NonceEntry)

/-- `NonceStore.IsNonceUsed`: key is `fromAddress + ":" + nonce`; an entry
counts only until `time.Now().After(entry.ExpiresAt)`. -/
def IsNonceUsed (now : Int) (ns : NonceStore) (fromAddress nonce : String) : Bool :=
  match List.lookup (fromAddress ++ ":" ++ nonce) ns with
  | none => false
  | some entry => if now > entry.expiresAt then false else true

/-- `NonceStore.MarkNonceUsed`: insert under `fromAddress + ":" + nonce`
with expiry `validBefore + 3600` seconds. -/
def MarkNonceUsed (now : Int) (ns : NonceStore) (fromAddress nonce : String)
    (validBefore : Int) : NonceStore :=
  (fromAddress ++ ":" ++ nonce, { firstSeen := now, expiresAt := validBefore + 3600 }) :: ns

/-- `Provider.Verify`'s hard-coded asset whitelist (part_005 lines
118-136): the map literal holds exactly the Base mainnet USDC address, in
lower case; the other entries are commented out in the source. -/
def whitelistedAssets (assetLower : String) : Bool :=
  assetLower == "0x833589fcd6edb6e08f4c7c32d4f71b54bda02913"

/-- Normalize the 65th signature byte: `if sigBytes[64] >= 27 { sigBytes[64] -= 27 }`. -/
def normalizeV (v : Nat) : Nat := if 27 ≤ v then v - 27 else v

/-- The external observations one `Verify` call makes: the wall clock, the
EIP-712 hashing outcome, the address recovery oracle (for the digest of
this call, over the normalized 65 signature bytes), and the balance probe. -/
structure VerifyEnv where
  now : Nat
  hashTyped : Except String Unit
  recover : List Nat → Except String String
  balance : Except String Int

/-- `Provider.verifySignature`: hash the typed data (abstracted; the code
errors out of `HashStruct` on malformed message fields), hex-decode the
signature, require exactly 65 bytes, normalize `v`, recover, and compare
the recovered address to `from` case-insensitively. -/
def verifySignature (env : VerifyEnv) (fromHex signature : String) : Except String Bool :=
  match env.hashTyped with
  | .error msg => .error ("failed to hash typed data: " ++ msg)
  | .ok _ =>
    match hexDecode (trim0x signature) with
    | none => .error "invalid signature hex"
    | some sigBytes =>
      if sigBytes.length ≠ 65 then .error "invalid signature length"
      else
        let adjusted := sigBytes.set 64 (normalizeV (sigBytes.getD 64 0))
        match env.recover adjusted with
        | .error _ => .error "failed to recover pubkey"
        | .ok addr => .ok (eqFold addr fromHex)

/-- `Provider.Verify` (part_005 lines 97-283): the full validation
pipeline, threading the nonce store it reads.  Returns the Go-level
result (`error` or response) together with the store after the call. -/
def ProviderVerify (env : VerifyEnv) (store : NonceStore) (req : VerifyRequest) :
    Except GoErr VerifyResponse × NonceStore :=
  let auth := req.paymentPayload.payload.authorization
  let reqs := req.paymentRequirements
  let payer := NewEvmAddress auth.fromAddr
  if ¬ eqFold reqs.payTo auth.toAddr then
    (.ok (invalidResp (.receiverMismatch reqs.payTo auth.toAddr) payer), store)
  else if ¬ whitelistedAssets (asciiLower reqs.asset) then
    (.ok (invalidResp (.unsupportedAsset reqs.asset) payer), store)
  else
    match parseUint64 auth.validAfter with
    | none => (.error (.invalidValidAfter auth.validAfter), store)
    | some validAfter =>
      match parseUint64 auth.validBefore with
      | none => (.error (.invalidValidBefore auth.validBefore), store)
      | some validBefore =>
        if validBefore ≤ validAfter then
          (.ok (invalidResp (.invalidWindow validBefore validAfter) payer), store)
        else if env.now < validAfter then
          (.ok (invalidResp (.notYetValid auth.validAfter env.now) payer), store)
        else if validBefore ≤ env.now then
          (.ok (invalidResp (.expired auth.validBefore env.now) payer), store)
        else if 0 < reqs.maxTimeoutSeconds ∧
            reqs.maxTimeoutSeconds.toNat < validBefore - validAfter then
          (.ok (invalidResp
            (.windowTooLong (validBefore - validAfter) reqs.maxTimeoutSeconds.toNat) payer), store)
        else if IsNonceUsed (env.now : Int) store auth.fromAddr auth.nonce then
          (.ok (invalidResp .nonceReplay payer), store)
        else
          match parseBigInt auth.value with
          | none => (.ok (invalidResp .invalidValueFormat payer), store)
          | some value =>
            match parseBigInt reqs.maxAmountRequired with
            | none => (.error .facDecodingRequiredAmount, store)
            | some requiredAmount =>
              if value < requiredAmount then
                (.ok (invalidResp .insufficientValue payer), store)
              else
                match verifySignature env auth.fromAddr req.paymentPayload.payload.signature with
                | .error msg => (.ok (invalidResp (.sigVerifyError msg) payer), store)
                | .ok false => (.ok (invalidResp .invalidSignature payer), store)
                | .ok true =>
                  match env.balance with
                  | .error msg => (.ok (invalidResp (.balanceCheckFailed msg) payer), store)
                  | .ok balance =>
                    if balance < value then
                      (.ok (invalidResp .insufficientFunds payer), store)
                    else
                      (.ok { isValid := true, payer := some payer, reason := none }, store)

/-- `types.TransactionHash`. -/
structure TransactionHash where
  type_ : String
  hash : String
deriving DecidableEq, Repr

/-- The error value of a failed `SettleResponse`, one constructor per
`return` site of `Provider.Settle`. -/
inductive SettleErr where
  | verificationFailed (e : GoErr)
  | notValid (reason : Option VReason)
  | invalidNonceHex
  | invalidSignatureHex
  | invalidValue
  | invalidValidAfter
  | invalidValidBefore
  | txFailed (msg : String)
  | waitFailed (msg : String)
  | reverted
deriving DecidableEq, Repr

/-- `types.SettleResponse`. -/
structure SettleResponse where
  success : Bool
  transactionHash : Option TransactionHash
  error : Option SettleErr
deriving DecidableEq, Repr

/-- The arguments `Provider.Settle` hands to `transferWithAuthorization`. -/
structure BroadcastArgs where
  token : String
  fromAddr : String
  toAddr : String
  value : Int
  validAfter : Int
  validBefore : Int
  nonce32 : List Nat
  signature : List Nat
deriving DecidableEq, Repr

/-- External observations of one `Settle` call: the verify observations,
the broadcast outcome as a function of its arguments (success carries the
transaction hash), and the `WaitMined` outcome (success carries the
receipt status; `types.ReceiptStatusSuccessful = 1`). -/
structure SettleEnv where
  venv : VerifyEnv
  broadcast : BroadcastArgs → Except String String
  waitMined : Except String Nat

/-- Result of the settle model: the wire response, the nonce store after
the call, and the broadcast invocation (if the pipeline reached it). -/
structure SettleOutcome where
  resp : SettleResponse
  store : NonceStore
  broadcastCall : Option BroadcastArgs

/-- `copy(nonce32[:], nonceBytes)`: the decoded bytes land in a 32-byte
array, zero-padded on the right when shorter, truncated when longer. -/
def nonce32Of (bytes : List Nat) : List Nat :=
  bytes.take 32 ++ List.replicate (32 - bytes.length) 0

/-- `(*big.Int).Int64()` as implemented in `math/big` for the values this
code produces (low 64 bits, two's complement; the Go documentation calls
the out-of-range case undefined, the implementation wraps). -/
def goBigInt64 (n : Int) : Int :=
  let u : Nat := n.natAbs % 2 ^ 64
  let v : Int := if u < 2 ^ 63 then (u : Int) else (u : Int) - 2 ^ 64
  if n < 0 then -v else v

/-- `Provider.Settle` (part_005 lines 285-411): internal verify, nonce and
signature hex parsing, big-integer parsing, broadcast, `WaitMined`, and
the nonce-store write that happens only on a successful receipt.  Relayer
key rotation and gas handling live inside the broadcast observation. -/
def ProviderSettle (env : SettleEnv) (store : NonceStore) (req : SettleRequest) :
    SettleOutcome :=
  let verifyReq : VerifyRequest := ⟨req.paymentPayload, req.paymentRequirements⟩
  match ProviderVerify env.venv store verifyReq with
  | (.error e, store1) => ⟨⟨false, none, some (.verificationFailed e)⟩, store1, none⟩
  | (.ok verifyResp, store1) =>
    if verifyResp.isValid = false then
      ⟨⟨false, none, some (.notValid verifyResp.reason)⟩, store1, none⟩
    else
      let auth := req.paymentPayload.payload.authorization
      match hexDecode (trim0x auth.nonce) with
      | none => ⟨⟨false, none, some .invalidNonceHex⟩, store1, none⟩
      | some nonceBytes =>
        let nonce32 := nonce32Of nonceBytes
        match hexDecode (trim0x req.paymentPayload.payload.signature) with
        | none => ⟨⟨false, none, some .invalidSignatureHex⟩, store1, none⟩
        | some sigBytes =>
          match parseBigInt auth.value with
          | none => ⟨⟨false, none, some .invalidValue⟩, store1, none⟩
          | some value =>
            match parseBigInt auth.validAfter with
            | none => ⟨⟨false, none, some .invalidValidAfter⟩, store1, none⟩
            | some validAfter =>
              match parseBigInt auth.validBefore with
              | none => ⟨⟨false, none, some .invalidValidBefore⟩, store1, none⟩
              | some validBefore =>
                let args : BroadcastArgs :=
                  ⟨req.paymentRequirements.asset, auth.fromAddr, auth.toAddr,
                    value, validAfter, validBefore, nonce32, sigBytes⟩
                match env.broadcast args with
                | .error msg => ⟨⟨false, none, some (.txFailed msg)⟩, store1, some args⟩
                | .ok txHash =>
                  match env.waitMined with
                  | .error msg => ⟨⟨false, none, some (.waitFailed msg)⟩, store1, some args⟩
                  | .ok status =>
                    if status ≠ 1 then
                      ⟨⟨false, none, some .reverted⟩, store1, some args⟩
                    else
                      ⟨⟨true, some ⟨"evm", txHash⟩, none⟩,
                        MarkNonceUsed (env.venv.now : Int) store1 auth.fromAddr auth.nonce
                          (goBigInt64 validBefore),
                        some args⟩

/-- `network.USDCDeployment`. -/
structure USDCDeployment where
  network : Network
  tokenAddress : String
  tokenSymbol : String
  decimals : Nat
deriving DecidableEq, Repr

/-- `network.USDCDeployments` / `network.GetUSDCDeployment`: the static
registry of canonical USDC deployments (part_009 lines 112-155 and
170-177).  `sei`, `sei-testnet` and the Solana networks have no entry. -/
def GetUSDCDeployment : Network → Option USDCDeployment
  | .baseSepolia =>
    some ⟨.baseSepolia, "0x036CbD53842c5426634e7929541eC2318f3dCF7e", "USDC", 6⟩
  | .base =>
    some ⟨.base, "0x833589fCD6eDb6E08f4c7C32D4f71b54bdA02913", "USDC", 6⟩
  | .avalancheFuji =>
    some ⟨.avalancheFuji, "0x5425890298aed601595a70AB815c96711a31Bc65", "USDC", 6⟩
  | .avalanche =>
    some ⟨.avalanche, "0xB97EF9Ef8734C71904D8002F8b6Bc66Dd9c48a6E", "USDC", 6⟩
  | .polygonAmoy =>
    some ⟨.polygonAmoy, "0x41e94eb019c0762f9bfcf9fb1e58725bfb0e7582", "USDC", 6⟩
  | .polygon =>
    some ⟨.polygon, "0x3c499c542cef5e3811e1192ce70d8cc03d5c3359", "USDC", 6⟩
  | .xdc =>
    some ⟨.xdc, "0xD4B5f10D61916Bd6E0860144a91Ac658dE8a1437", "USDC", 6⟩
  | _ => none

/-- `types.SupportedPaymentKind`. -/
structure SupportedPaymentKind where
  version : String
  scheme : String
  network : Network
  token : MixedAddress
  tokenSymbol : String
deriving DecidableEq, Repr

/-- The entry `LocalFacilitator.Supported` appends for one provider. -/
def mkSupportedKind (net : Network) (d : USDCDeployment) : SupportedPaymentKind :=
  ⟨"1", "exact", net, NewEvmAddress d.tokenAddress, d.tokenSymbol⟩

/-- `LocalFacilitator.Supported` (local.go lines 113-146): iterate the
configured EVM providers, skip networks without a registry USDC
deployment, and emit one kind per remaining provider.  The configured
provider set is the map's key set, given here as a list. -/
def Supported (providers : List Network) : List SupportedPaymentKind :=
  providers.filterMap (fun net => (GetUSDCDeployment net).map (mkSupportedKind net))

/-- Outcome of `Handler.VerifyHandler` after the facilitator call: either
an HTTP 200 JSON `VerifyResponse`, or an HTTP 500 error page. -/
inductive HandlerResult where
  | ok200 (resp : VerifyResponse)
  | internalError500 (e : GoErr)
deriving DecidableEq, Repr

/-- The response envelope the handler builds from a `FacilitatorError`:
`types.NewInvalidResponse(facErr.Message, facErr.Payer)`.  The only
`FacilitatorError` `Provider.Verify` returns as a Go error is the
`DecodingError` for an unparseable `maxAmountRequired`, which carries no
payer. -/
def facErrResponse : GoErr → VerifyResponse
  | .facDecodingRequiredAmount =>
    { isValid := false, payer := none, reason := some .decodingRequiredAmount }
  | .invalidValidAfter _ => { isValid := false, payer := none, reason := none }
  | .invalidValidBefore _ => { isValid := false, payer := none, reason := none }

/-- `Handler.VerifyHandler`'s error mapping (part_007 lines 40-52): a
`*types.FacilitatorError` becomes HTTP 200 with an `isValid:false`
envelope; any other Go error becomes HTTP 500. -/
def VerifyHandlerResult (r : Except GoErr VerifyResponse) : HandlerResult :=
  match r with
  | .ok resp => .ok200 resp
  | .error e =>
    if e.isFacilitatorError then .ok200 (facErrResponse e)
    else .internalError500 e

/-! ### Shared helper lemmas -/

/-- `Provider.Verify` never writes the nonce store: every return path of
the pipeline passes the input store through unchanged. -/
theorem providerVerify_store_eq (env : VerifyEnv) (store : NonceStore) (req : VerifyRequest) :
    (ProviderVerify env store req).2 = store := by
  unfold ProviderVerify
  dsimp only
  repeat' split
  all_goals rfl

/-- String concatenation is left-cancellative. -/
theorem stringAppendLeftCancel (p a b : String) (h : p ++ a = p ++ b) : a = b := by
  have hd : (p ++ a).data = (p ++ b).data := congrArg String.data h
  simp only [String.data_append] at hd
  exact String.ext (List.append_cancel_left hd)

/-! ### Claim C4 -/

/-- C4: for every well-formed verify request, `Verify` is pure and
idempotent: it writes nothing to the nonce store (the store after the call
is the store before it), and a second call with the same request under the
same external observations (clock value, nonce-store contents and
balance-probe result, all carried by `VerifyEnv` and the store) returns
the identical Go-level result. -/
theorem C4_verify_pure_idempotent (env : VerifyEnv) (store : NonceStore) (req : VerifyRequest) :
    (ProviderVerify env store req).2 = store ∧
    ProviderVerify env (ProviderVerify env store req).2 req = ProviderVerify env store req := by
  refine ⟨providerVerify_store_eq env store req, ?_⟩
  rw [providerVerify_store_eq]

/-! ### Claim C9 -/

/-- C9: nonce-replay detection is case-sensitive in the nonce's textual
hex form.  The store key concatenates the raw nonce string, so after
`MarkNonceUsed` records a nonce under one capitalization, `IsNonceUsed`
queried with any other string — in particular a different capitalization
of the same bytes — still answers `false` (provided that other string was
not itself already recorded). -/
theorem C9_nonce_store_case_sensitive (store : NonceStore) (fs now : Int)
    (fromAddr n1 n2 : String) (vb : Int) (hne : n1 ≠ n2)
    (hfresh : IsNonceUsed now store fromAddr n2 = false) :
    IsNonceUsed now (MarkNonceUsed fs store fromAddr n1 vb) fromAddr n2 = false := by
  have hkey : ((fromAddr ++ ":" ++ n2) == (fromAddr ++ ":" ++ n1)) = false := by
    refine beq_eq_false_iff_ne.mpr (fun h => hne ?_)
    exact (stringAppendLeftCancel (fromAddr ++ ":") n2 n1 h).symm ▸ rfl
  unfold IsNonceUsed MarkNonceUsed at *
  simp only [List.lookup, hkey]
  exact hfresh

/-- Witness for C9: the payer records nonce `0xAB…AB` (32 bytes), and a
query for `0xab…ab` — the same bytes, different capitalization, as the
`hexDecode` conjunct certifies — is not flagged as a replay. -/
theorem C9_witness :
    hexDecode (trim0x "0xABABABABABABABABABABABABABABABABABABABABABABABABABABABABABABABAB")
      = hexDecode (trim0x "0xabababababababababababababababababababababababababababababababab") ∧
    IsNonceUsed 1700000000
      (MarkNonceUsed 1700000000 [] "0x1111111111111111111111111111111111111111"
        "0xABABABABABABABABABABABABABABABABABABABABABABABABABABABABABABABAB" 1700003600)
      "0x1111111111111111111111111111111111111111"
      "0xabababababababababababababababababababababababababababababababab" = false :=
  ⟨by decide,
    C9_nonce_store_case_sensitive [] 1700000000 1700000000
      "0x1111111111111111111111111111111111111111"
      "0xABABABABABABABABABABABABABABABABABABABABABABABABABABABABABABABAB"
      "0xabababababababababababababababababababababababababababababababab"
      1700003600 (by decide) (by decide)⟩

/-! ### Concrete inputs for witnesses and counterexamples -/

/-- The spec's Base Sepolia happy-path authorization: value `"25000"`,
window `[now, now+3600]` at `now = 1700000000`, a fresh 32-byte nonce. -/
def happyAuth : Authorization :=
  { fromAddr := "0x1111111111111111111111111111111111111111"
    toAddr := "0x2222222222222222222222222222222222222222"
    value := "25000"
    validAfter := "1700000000"
    validBefore := "1700003600"
    nonce := "0x0101010101010101010101010101010101010101010101010101010101010101" }

/-- A 65-byte signature (hex), final byte `v = 27` (`0x1b`). -/
def happySig : String :=
  "0x111111111111111111111111111111111111111111111111111111111111111111111111111111111111111111111111111111111111111111111111111111111b"

/-- The Base Sepolia happy-path verify request from the spec's scenario:
network `base-sepolia`, asset `0x036CbD53842c5426634e7929541eC2318f3dCF7e`,
maxTimeoutSeconds 3600, receiver matching `payTo`. -/
def baseSepoliaHappyRequest : VerifyRequest :=
  { paymentPayload :=
      { x402Version := 1, scheme := "exact", network := .baseSepolia
        payload := { signature := happySig, authorization := happyAuth } }
    paymentRequirements :=
      { scheme := "exact", network := .baseSepolia
        payTo := "0x2222222222222222222222222222222222222222"
        maxAmountRequired := "25000", maxTimeoutSeconds := 3600
        asset := "0x036CbD53842c5426634e7929541eC2318f3dCF7e" } }

/-- Benign observations: clock inside the window, hashing succeeds,
recovery yields the payer, the payer is funded. -/
def happyEnv : VerifyEnv :=
  { now := 1700000000
    hashTyped := .ok ()
    recover := fun _ => .ok "0x1111111111111111111111111111111111111111"
    balance := .ok 1000000 }

/-- The same request pointed at the whitelisted Base mainnet USDC asset. -/
def baseMainnetRequest : VerifyRequest :=
  { paymentPayload :=
      { x402Version := 1, scheme := "exact", network := .base
        payload := { signature := happySig, authorization := happyAuth } }
    paymentRequirements :=
      { scheme := "exact", network := .base
        payTo := "0x2222222222222222222222222222222222222222"
        maxAmountRequired := "25000", maxTimeoutSeconds := 3600
        asset := "0x833589fCD6eDb6E08f4c7C32D4f71b54bdA02913" } }

/-! ### Claim C1 -/

/-- Counterexample to C1: the spec's Base Sepolia happy-path request is
rejected at the asset-whitelist stage with an unsupported-asset reason —
the hard-coded whitelist holds only the Base mainnet USDC contract and
never any testnet deployment, whatever the provider's network. -/
theorem C1_counterexample :
    ProviderVerify happyEnv [] baseSepoliaHappyRequest =
      (.ok (invalidResp (.unsupportedAsset "0x036CbD53842c5426634e7929541eC2318f3dCF7e")
        (NewEvmAddress "0x1111111111111111111111111111111111111111")), []) := by
  decide

/-- C1 (amended): the asset-whitelist stage of `Provider.Verify` accepts
exactly the single hard-coded Base mainnet USDC contract
(`0x833589…` compared in lower case), independently of the provider's
network; every other asset — including every testnet USDC deployment —
is rejected with an unsupported-asset reason carrying the derived payer,
once the receiver check has passed. -/
theorem C1_whitelist_is_mainnet_only (env : VerifyEnv) (store : NonceStore) (req : VerifyRequest)
    (hrecv : eqFold req.paymentRequirements.payTo
      req.paymentPayload.payload.authorization.toAddr = true) :
    (whitelistedAssets (asciiLower req.paymentRequirements.asset) = false →
      ProviderVerify env store req =
        (.ok (invalidResp (.unsupportedAsset req.paymentRequirements.asset)
          (NewEvmAddress req.paymentPayload.payload.authorization.fromAddr)), store)) ∧
    (whitelistedAssets (asciiLower req.paymentRequirements.asset) = true →
      ∀ a p, (ProviderVerify env store req).1 ≠ .ok (invalidResp (.unsupportedAsset a) p)) ∧
    (∀ assetLower, whitelistedAssets assetLower = true ↔
      assetLower = "0x833589fcd6edb6e08f4c7c32d4f71b54bda02913") := by
  refine ⟨?_, ?_, ?_⟩
  · intro hwl
    unfold ProviderVerify
    simp [hrecv, hwl]
  · intro hwl a p
    unfold ProviderVerify
    dsimp only
    simp only [hrecv, not_true, if_false, hwl, Bool.not_true]
    repeat' split
    all_goals simp [invalidResp]
  · intro assetLower
    unfold whitelistedAssets
    exact ⟨fun h => by simpa using h, fun h => by simp [h]⟩

/-- Witness for the amended C1: with the Base mainnet USDC asset the
request passes the whitelist stage (its outcome is not an
unsupported-asset rejection). -/
theorem C1_witness :
    (ProviderVerify happyEnv [] baseMainnetRequest).1 ≠
      .ok (invalidResp (.unsupportedAsset "0x833589fCD6eDb6E08f4c7C32D4f71b54bdA02913")
        (NewEvmAddress "0x1111111111111111111111111111111111111111")) :=
  (C1_whitelist_is_mainnet_only happyEnv [] baseMainnetRequest (by decide)).2.1 (by decide)
    "0x833589fCD6eDb6E08f4c7C32D4f71b54bdA02913"
    (NewEvmAddress "0x1111111111111111111111111111111111111111")

/-! ### Claim C3 -/

/-- The Base-mainnet request with an unparseable `validAfter`. -/
def badValidAfterRequest : VerifyRequest :=
  { paymentPayload :=
      { x402Version := 1, scheme := "exact", network := .base
        payload := { signature := happySig
                     authorization := { happyAuth with validAfter := "17e9" } } }
    paymentRequirements := baseMainnetRequest.paymentRequirements }

/-- Counterexample to C3: an authorization whose `validAfter` does not
parse makes `Provider.Verify` return a plain (non-`FacilitatorError`) Go
error, which `Handler.VerifyHandler` turns into an HTTP 500 — not an
`{isValid:false}` envelope over HTTP 200. -/
theorem C3_counterexample :
    VerifyHandlerResult (ProviderVerify happyEnv [] badValidAfterRequest).1 =
      .internalError500 (.invalidValidAfter "17e9") := by
  decide

/-- C3 (amended): every in-envelope rejection of the EVM provider reaches
the client as HTTP 200, and an unparseable `requirements.maxAmountRequired`
— escalated as a `*FacilitatorError` `DecodingError` — is also converted
by the HTTP adapter into an HTTP 200 `{isValid:false}` envelope; but an
authorization whose `validAfter` or `validBefore` does not parse as an
unsigned integer escalates as a plain Go error that the adapter turns
into an HTTP 500 response. -/
theorem C3_error_propagation (env : VerifyEnv) (store : NonceStore) (req : VerifyRequest)
    (hrecv : eqFold req.paymentRequirements.payTo
      req.paymentPayload.payload.authorization.toAddr = true)
    (hasset : whitelistedAssets (asciiLower req.paymentRequirements.asset) = true) :
    (∀ resp, (ProviderVerify env store req).1 = .ok resp →
      VerifyHandlerResult (ProviderVerify env store req).1 = .ok200 resp) ∧
    ((ProviderVerify env store req).1 = .error .facDecodingRequiredAmount →
      VerifyHandlerResult (ProviderVerify env store req).1 =
        .ok200 { isValid := false, payer := none, reason := some .decodingRequiredAmount }) ∧
    (parseUint64 req.paymentPayload.payload.authorization.validAfter = none →
      (ProviderVerify env store req).1 =
        .error (.invalidValidAfter req.paymentPayload.payload.authorization.validAfter) ∧
      VerifyHandlerResult (ProviderVerify env store req).1 =
        .internalError500
          (.invalidValidAfter req.paymentPayload.payload.authorization.validAfter)) ∧
    (∀ a, parseUint64 req.paymentPayload.payload.authorization.validAfter = some a →
      parseUint64 req.paymentPayload.payload.authorization.validBefore = none →
      (ProviderVerify env store req).1 =
        .error (.invalidValidBefore req.paymentPayload.payload.authorization.validBefore) ∧
      VerifyHandlerResult (ProviderVerify env store req).1 =
        .internalError500
          (.invalidValidBefore req.paymentPayload.payload.authorization.validBefore)) := by
  refine ⟨?_, ?_, ?_, ?_⟩
  · intro resp h
    rw [h]
    rfl
  · intro h
    rw [h]
    rfl
  · intro hpa
    have h1 : (ProviderVerify env store req).1 =
        .error (.invalidValidAfter req.paymentPayload.payload.authorization.validAfter) := by
      unfold ProviderVerify
      simp [hrecv, hasset, hpa]
    exact ⟨h1, by rw [h1]; rfl⟩
  · intro a hpa hpb
    have h1 : (ProviderVerify env store req).1 =
        .error (.invalidValidBefore req.paymentPayload.payload.authorization.validBefore) := by
      unfold ProviderVerify
      simp [hrecv, hasset, hpa, hpb]
    exact ⟨h1, by rw [h1]; rfl⟩

/-- Witness for the amended C3: at the concrete bad-`validAfter` request
(`"17e9"` does not parse) the provider's Go error reaches the client as
an HTTP 500. -/
theorem C3_witness :
    (ProviderVerify happyEnv [] badValidAfterRequest).1 =
      .error (.invalidValidAfter "17e9") ∧
    VerifyHandlerResult (ProviderVerify happyEnv [] badValidAfterRequest).1 =
      .internalError500 (.invalidValidAfter "17e9") :=
  (C3_error_propagation happyEnv [] badValidAfterRequest (by decide) (by decide)).2.2.1
    (by decide)

/-! ### Claim C5 -/

/-- Classifier for the InvalidTiming-style rejections of the pipeline
(window malformed, not yet valid, expired, window too long). -/
def timingReason : VReason → Bool
  | .invalidWindow _ _ => true
  | .notYetValid _ _ => true
  | .expired _ _ => true
  | .windowTooLong _ _ => true
  | _ => false

/-- C5: with parseable timestamps (and the receiver and asset stages
passed), the timing stages accept exactly when `validBefore > validAfter`,
`now ∈ [validAfter, validBefore)` — `now = validAfter` accepted,
`now = validBefore` rejected as expired — and, when
`maxTimeoutSeconds > 0`, `validBefore − validAfter ≤ maxTimeoutSeconds`;
for `maxTimeoutSeconds ≤ 0` the window bound is skipped; each violation
yields `isValid=false` with an InvalidTiming-style reason and the derived
payer. -/
theorem C5_timing_stages (env : VerifyEnv) (store : NonceStore) (req : VerifyRequest)
    (va vb : Nat)
    (hrecv : eqFold req.paymentRequirements.payTo
      req.paymentPayload.payload.authorization.toAddr = true)
    (hasset : whitelistedAssets (asciiLower req.paymentRequirements.asset) = true)
    (hpa : parseUint64 req.paymentPayload.payload.authorization.validAfter = some va)
    (hpb : parseUint64 req.paymentPayload.payload.authorization.validBefore = some vb) :
    (vb ≤ va → ProviderVerify env store req =
      (.ok (invalidResp (.invalidWindow vb va)
        (NewEvmAddress req.paymentPayload.payload.authorization.fromAddr)), store)) ∧
    (va < vb → env.now < va → ProviderVerify env store req =
      (.ok (invalidResp (.notYetValid req.paymentPayload.payload.authorization.validAfter env.now)
        (NewEvmAddress req.paymentPayload.payload.authorization.fromAddr)), store)) ∧
    (va < vb → va ≤ env.now → vb ≤ env.now → ProviderVerify env store req =
      (.ok (invalidResp (.expired req.paymentPayload.payload.authorization.validBefore env.now)
        (NewEvmAddress req.paymentPayload.payload.authorization.fromAddr)), store)) ∧
    (va < vb → va ≤ env.now → env.now < vb →
      0 < req.paymentRequirements.maxTimeoutSeconds →
      req.paymentRequirements.maxTimeoutSeconds.toNat < vb - va →
      ProviderVerify env store req =
        (.ok (invalidResp
          (.windowTooLong (vb - va) req.paymentRequirements.maxTimeoutSeconds.toNat)
          (NewEvmAddress req.paymentPayload.payload.authorization.fromAddr)), store)) ∧
    (va < vb → va ≤ env.now → env.now < vb →
      (0 < req.paymentRequirements.maxTimeoutSeconds →
        vb - va ≤ req.paymentRequirements.maxTimeoutSeconds.toNat) →
      ∀ resp, (ProviderVerify env store req).1 = .ok resp →
        ∀ r, resp.reason = some r → timingReason r = false) := by
  refine ⟨?_, ?_, ?_, ?_, ?_⟩
  · intro hba
    unfold ProviderVerify
    simp [hrecv, hasset, hpa, hpb, hba]
  · intro hab hnow
    unfold ProviderVerify
    simp [hrecv, hasset, hpa, hpb, Nat.not_le.mpr hab, hnow, Nat.le_of_lt hnow]
  · intro hab hna hnb
    unfold ProviderVerify
    simp [hrecv, hasset, hpa, hpb, Nat.not_le.mpr hab, Nat.not_lt.mpr hna, hnb]
  · intro hab hna hnb hmts hwin
    unfold ProviderVerify
    simp [hrecv, hasset, hpa, hpb, Nat.not_le.mpr hab, Nat.not_lt.mpr hna,
      Nat.not_le.mpr hnb, hmts, hwin]
  · intro hab hna hnb hbound
    have h1 : ¬ (vb ≤ va) := Nat.not_le.mpr hab
    have h2 : ¬ (env.now < va) := Nat.not_lt.mpr hna
    have h3 : ¬ (vb ≤ env.now) := Nat.not_le.mpr hnb
    have h4 : ¬ (0 < req.paymentRequirements.maxTimeoutSeconds ∧
        req.paymentRequirements.maxTimeoutSeconds.toNat < vb - va) := fun hc =>
      absurd (hbound hc.1) (Nat.not_le.mpr hc.2)
    unfold ProviderVerify
    dsimp only
    simp only [hrecv, hasset, hpa, hpb, h1, h2, h3, h4, not_true, Bool.not_true,
      if_false, ite_false, if_neg, eq_self_iff_true, not_false_iff, ite_true,
      Bool.false_eq_true, if_true]
    repeat' split
    all_goals intro resp h r hr
    all_goals
      first
      | exact Except.noConfusion h
      | (injection h with h2; subst h2; exact Option.noConfusion hr)
      | (injection h with h2; subst h2; injection hr with hr2; subst hr2; rfl)

/-- The Base-mainnet request with a window `[1690000000, 1695000000)`
entirely in the past of the clock `1700000000`. -/
def expiredRequest : VerifyRequest :=
  { paymentPayload :=
      { x402Version := 1, scheme := "exact", network := .base
        payload := { signature := happySig
                     authorization := { happyAuth with
                       validAfter := "1690000000", validBefore := "1695000000" } } }
    paymentRequirements := baseMainnetRequest.paymentRequirements }

/-- Witness for C5: the spec's expired scenario — `now` at or past
`validBefore` — is rejected with the expired InvalidTiming reason and the
derived payer. -/
theorem C5_witness :
    ProviderVerify happyEnv [] expiredRequest =
      (.ok (invalidResp (.expired "1695000000" 1700000000)
        (NewEvmAddress "0x1111111111111111111111111111111111111111")), []) :=
  (C5_timing_stages happyEnv [] expiredRequest 1690000000 1695000000 (by decide) (by decide)
    (by decide) (by decide)).2.2.1 (by decide) (by decide) (by decide)

/-! ### Claim C6 -/

/-- Observations in which EIP-712 hashing fails — as `apitypes.HashStruct`
does when asked to encode a negative string as `uint256`. -/
def negValueEnv : VerifyEnv :=
  { now := 1700000000
    hashTyped := .error "cannot encode negative uint256"
    recover := fun _ => .ok "0x1111111111111111111111111111111111111111"
    balance := .ok 1000000 }

/-- The Base-mainnet request authorizing the negative value `"-5"`
against the negative requirement `"-10"`. -/
def negValueRequest : VerifyRequest :=
  { paymentPayload :=
      { x402Version := 1, scheme := "exact", network := .base
        payload := { signature := happySig
                     authorization := { happyAuth with value := "-5" } } }
    paymentRequirements :=
      { baseMainnetRequest.paymentRequirements with maxAmountRequired := "-10" } }

/-- Counterexample to C6: `big.Int.SetString(s, 10)` accepts signed
strings, so the value `"-5"` (against requirement `"-10"`) passes both
amount stages — `-5 ≥ -10` — and the pipeline only fails later, at the
signature stage; the value string is thus not required to be a
non-negative integer. -/
theorem C6_counterexample :
    ProviderVerify negValueEnv [] negValueRequest =
      (.ok (invalidResp
        (.sigVerifyError "failed to hash typed data: cannot encode negative uint256")
        (NewEvmAddress "0x1111111111111111111111111111111111111111")), []) := by
  decide

/-- C6 (amended): once the stages before the amount checks have passed,
the authorization's `value` is accepted exactly when it parses as a
base-10 big integer with an optional sign (`big.Int.SetString` semantics;
non-negativity is not checked), `maxAmountRequired` likewise (its parse
failure escalating as a Go-level `DecodingError`), and the request is
rejected with `InsufficientValue` exactly when parsed `value` is strictly
less than parsed `maxAmountRequired`. -/
theorem C6_amount_stages (env : VerifyEnv) (store : NonceStore) (req : VerifyRequest)
    (va vb : Nat)
    (hrecv : eqFold req.paymentRequirements.payTo
      req.paymentPayload.payload.authorization.toAddr = true)
    (hasset : whitelistedAssets (asciiLower req.paymentRequirements.asset) = true)
    (hpa : parseUint64 req.paymentPayload.payload.authorization.validAfter = some va)
    (hpb : parseUint64 req.paymentPayload.payload.authorization.validBefore = some vb)
    (hab : va < vb) (hna : va ≤ env.now) (hnb : env.now < vb)
    (hbound : 0 < req.paymentRequirements.maxTimeoutSeconds →
      vb - va ≤ req.paymentRequirements.maxTimeoutSeconds.toNat)
    (hnonce : IsNonceUsed (env.now : Int) store
      req.paymentPayload.payload.authorization.fromAddr
      req.paymentPayload.payload.authorization.nonce = false) :
    (parseBigInt req.paymentPayload.payload.authorization.value = none →
      ProviderVerify env store req = (.ok (invalidResp .invalidValueFormat
        (NewEvmAddress req.paymentPayload.payload.authorization.fromAddr)), store)) ∧
    (∀ v, parseBigInt req.paymentPayload.payload.authorization.value = some v →
      parseBigInt req.paymentRequirements.maxAmountRequired = none →
      ProviderVerify env store req = (.error .facDecodingRequiredAmount, store)) ∧
    (∀ v m, parseBigInt req.paymentPayload.payload.authorization.value = some v →
      parseBigInt req.paymentRequirements.maxAmountRequired = some m →
      v < m →
      ProviderVerify env store req = (.ok (invalidResp .insufficientValue
        (NewEvmAddress req.paymentPayload.payload.authorization.fromAddr)), store)) ∧
    (∀ v m, parseBigInt req.paymentPayload.payload.authorization.value = some v →
      parseBigInt req.paymentRequirements.maxAmountRequired = some m →
      m ≤ v →
      (ProviderVerify env store req).1 ≠ .error .facDecodingRequiredAmount ∧
      (∀ p, (ProviderVerify env store req).1 ≠ .ok (invalidResp .invalidValueFormat p)) ∧
      (∀ p, (ProviderVerify env store req).1 ≠ .ok (invalidResp .insufficientValue p))) := by
  have h1 : ¬ (vb ≤ va) := Nat.not_le.mpr hab
  have h2 : ¬ (env.now < va) := Nat.not_lt.mpr hna
  have h3 : ¬ (vb ≤ env.now) := Nat.not_le.mpr hnb
  have h4 : ¬ (0 < req.paymentRequirements.maxTimeoutSeconds ∧
      req.paymentRequirements.maxTimeoutSeconds.toNat < vb - va) := fun hc =>
    absurd (hbound hc.1) (Nat.not_le.mpr hc.2)
  refine ⟨?_, ?_, ?_, ?_⟩
  · intro hv
    unfold ProviderVerify
    simp [hrecv, hasset, hpa, hpb, h1, h2, h3, h4, hnonce, hv]
  · intro v hv hm
    unfold ProviderVerify
    simp [hrecv, hasset, hpa, hpb, h1, h2, h3, h4, hnonce, hv, hm]
  · intro v m hv hm hlt
    unfold ProviderVerify
    simp [hrecv, hasset, hpa, hpb, h1, h2, h3, h4, hnonce, hv, hm, hlt]
  · intro v m hv hm hle
    have h5 : ¬ (v < m) := Int.not_lt.mpr hle
    unfold ProviderVerify
    dsimp only
    simp only [hrecv, hasset, hpa, hpb, h1, h2, h3, h4, hnonce, hv, hm, h5, not_true,
      Bool.not_true, if_false, ite_false, eq_self_iff_true, not_false_iff, ite_true,
      Bool.false_eq_true, if_true]
    repeat' split
    all_goals refine ⟨?_, fun p => ?_, fun p => ?_⟩
    all_goals simp [invalidResp]

/-- The Base-mainnet request authorizing only `"10000"` of the required
`"25000"`. -/
def underpaidRequest : VerifyRequest :=
  { paymentPayload :=
      { x402Version := 1, scheme := "exact", network := .base
        payload := { signature := happySig
                     authorization := { happyAuth with value := "10000" } } }
    paymentRequirements := baseMainnetRequest.paymentRequirements }

/-- Witness for the amended C6: `10000 < 25000` is rejected with
`InsufficientValue` and the derived payer. -/
theorem C6_witness :
    ProviderVerify happyEnv [] underpaidRequest =
      (.ok (invalidResp .insufficientValue
        (NewEvmAddress "0x1111111111111111111111111111111111111111")), []) :=
  (C6_amount_stages happyEnv [] underpaidRequest 1700000000 1700003600 (by decide) (by decide)
    (by decide) (by decide) (by decide) (by decide) (by decide) (by decide)
    (by decide)).2.2.1 10000 25000 (by decide) (by decide) (by decide)

/-! ### Claim C7 -/

/-- C7: for any recovery oracle (hence any EIP-712 digest) and any
65-byte signature whose final byte `v` is below 27 (in particular
`v ∈ {0,1}`), `verifySignature` gives the same result on the signature
with `v` and on the one with `v + 27` (so `{0,27}` and `{1,28}` are
indistinguishable after the subtract-27 normalization); it returns
`true` exactly when the recovered address equals `from` up to case; and
any signature whose hex decoding is not exactly 65 bytes is rejected. -/
theorem C7_signature_v_normalization (env : VerifyEnv) (fromHex s1 s2 : String)
    (b : List Nat)
    (hh : env.hashTyped = .ok ())
    (h1 : hexDecode (trim0x s1) = some b)
    (hlen : b.length = 65)
    (hv : b.getD 64 0 < 27)
    (h2 : hexDecode (trim0x s2) = some (b.set 64 (b.getD 64 0 + 27))) :
    verifySignature env fromHex s1 = verifySignature env fromHex s2 ∧
    (∀ addr, env.recover (b.set 64 (b.getD 64 0)) = .ok addr →
      verifySignature env fromHex s1 = .ok (eqFold addr fromHex)) ∧
    (∀ s c, hexDecode (trim0x s) = some c → c.length ≠ 65 →
      verifySignature env fromHex s = .error "invalid signature length") := by
  have h64 : (64 : Nat) < b.length := by omega
  have hn1 : normalizeV (b.getD 64 0) = b.getD 64 0 := by
    unfold normalizeV
    rw [if_neg (Nat.not_le.mpr hv)]
  have hgd : (b.set 64 (b.getD 64 0 + 27)).getD 64 0 = b.getD 64 0 + 27 := by
    simp [List.getD_eq_getElem?_getD, List.getElem?_set_eq_of_lt _ h64]
  have hn2 : normalizeV ((b.set 64 (b.getD 64 0 + 27)).getD 64 0) = b.getD 64 0 := by
    rw [hgd]
    unfold normalizeV
    rw [if_pos (by omega)]
    omega
  have hs1 : verifySignature env fromHex s1 =
      match env.recover (b.set 64 (b.getD 64 0)) with
      | .error _ => .error "failed to recover pubkey"
      | .ok addr => .ok (eqFold addr fromHex) := by
    unfold verifySignature
    rw [hh]
    dsimp only
    rw [h1]
    dsimp only
    rw [if_neg (by rw [hlen]; omega), hn1]
  have hs2 : verifySignature env fromHex s2 =
      match env.recover (b.set 64 (b.getD 64 0)) with
      | .error _ => .error "failed to recover pubkey"
      | .ok addr => .ok (eqFold addr fromHex) := by
    unfold verifySignature
    rw [hh]
    dsimp only
    rw [h2]
    dsimp only
    rw [if_neg (by rw [List.length_set, hlen]; omega), hn2, List.set_set]
  refine ⟨hs1.trans hs2.symm, ?_, ?_⟩
  · intro addr haddr
    rw [hs1, haddr]
  · intro s c hc hclen
    unfold verifySignature
    rw [hh]
    dsimp only
    rw [hc]
    dsimp only
    rw [if_pos (by omega)]

/-- A 65-byte signature with `v = 1` (final hex pair `01`). -/
def sigV1 : String :=
  "0x1111111111111111111111111111111111111111111111111111111111111111111111111111111111111111111111111111111111111111111111111111111101"

/-- The same signature with `v = 1 + 27 = 28` (final hex pair `1c`). -/
def sigV28 : String :=
  "0x111111111111111111111111111111111111111111111111111111111111111111111111111111111111111111111111111111111111111111111111111111111c"

/-- Witness for C7: at a concrete 65-byte signature the `v = 1` and
`v = 28` encodings verify identically under the happy-path oracle. -/
theorem C7_witness :
    verifySignature happyEnv "0x1111111111111111111111111111111111111111" sigV1 =
      verifySignature happyEnv "0x1111111111111111111111111111111111111111" sigV28 :=
  (C7_signature_v_normalization happyEnv "0x1111111111111111111111111111111111111111"
    sigV1 sigV28 (List.replicate 64 17 ++ [1]) (by decide) (by decide) (by decide)
    (by decide) (by decide)).1

/-! ### Claim C8 -/

/-- C8: `Supported()` yields exactly one entry per configured EVM
provider whose network has a USDC deployment in the chain registry — the
entry carrying version `"1"`, scheme `"exact"`, the network, the
registry's token address as an `evm` `MixedAddress` and the registry's
token symbol — and networks without a registry deployment (for example
`sei` and `sei-testnet`) produce no entry. -/
theorem C8_supported_kinds (nets : List Network) :
    (Supported nets).length =
      (nets.filter (fun n => (GetUSDCDeployment n).isSome)).length ∧
    (∀ n ∈ nets, ∀ d, GetUSDCDeployment n = some d →
      mkSupportedKind n d ∈ Supported nets) ∧
    (∀ k ∈ Supported nets, k.network ∈ nets ∧
      ∃ d, GetUSDCDeployment k.network = some d ∧ k = mkSupportedKind k.network d ∧
        k.version = "1" ∧ k.scheme = "exact" ∧
        k.token = NewEvmAddress d.tokenAddress ∧ k.tokenSymbol = d.tokenSymbol) ∧
    GetUSDCDeployment .sei = none ∧ GetUSDCDeployment .seiTestnet = none := by
  refine ⟨?_, ?_, ?_, rfl, rfl⟩
  · induction nets with
    | nil => rfl
    | cons n ns ih =>
      unfold Supported at *
      cases hd : GetUSDCDeployment n <;>
        simp [List.filterMap_cons, List.filter_cons, hd, ih]
  · intro n hn d hd
    exact List.mem_filterMap.mpr ⟨n, hn, by rw [hd]; rfl⟩
  · intro k hk
    obtain ⟨n, hn, hf⟩ := List.mem_filterMap.mp hk
    cases hd : GetUSDCDeployment n with
    | none => rw [hd] at hf; cases hf
    | some d =>
      rw [hd] at hf
      injection hf with hf
      subst hf
      exact ⟨hn, d, hd, rfl, rfl, rfl, rfl, rfl⟩

/-- Witness for C8: with providers configured for `base` and `sei`, the
Base mainnet USDC kind is listed and `sei` contributes nothing. -/
theorem C8_witness :
    mkSupportedKind .base
      ⟨.base, "0x833589fCD6eDb6E08f4c7C32D4f71b54bdA02913", "USDC", 6⟩
      ∈ Supported [.base, .sei] ∧
    GetUSDCDeployment .sei = none :=
  ⟨(C8_supported_kinds [.base, .sei]).2.1 .base (by simp) _ rfl,
    (C8_supported_kinds [.base, .sei]).2.2.2.1⟩

/-! ### Claim C2 -/

/-- The nonce store is written only on on-chain success: any failing
settle (internal verification failure, bad hex or numeric field,
broadcast error, `WaitMined` error or a non-success receipt) leaves the
store exactly as it was, and a successful settle — which requires a
receipt with status `1` — inserts the `(from, nonce)` entry keyed by the
raw strings, with expiry `Int64(validBefore) + 3600`. -/
theorem settle_nonce_store_invariant (env : SettleEnv) (store : NonceStore)
    (req : SettleRequest) :
    ((ProviderSettle env store req).resp.success = false →
      (ProviderSettle env store req).store = store) ∧
    ((ProviderSettle env store req).resp.success = true →
      env.waitMined = Except.ok 1 ∧
      ∃ vb, parseBigInt req.paymentPayload.payload.authorization.validBefore = some vb ∧
        (ProviderSettle env store req).store =
          MarkNonceUsed ((env.venv.now : Int)) store
            req.paymentPayload.payload.authorization.fromAddr
            req.paymentPayload.payload.authorization.nonce (goBigInt64 vb)) := by
  have hst := providerVerify_store_eq env.venv store ⟨req.paymentPayload, req.paymentRequirements⟩
  unfold ProviderSettle
  dsimp only
  rcases hpv : ProviderVerify env.venv store ⟨req.paymentPayload, req.paymentRequirements⟩
    with ⟨res, st⟩
  rw [hpv] at hst
  dsimp only at hst
  subst hst
  cases res with
  | error e => exact ⟨fun _ => rfl, fun hs => Bool.noConfusion hs⟩
  | ok vr =>
    dsimp only
    repeat' split
    all_goals
      first
      | exact ⟨fun _ => rfl, fun hs => Bool.noConfusion hs⟩
      | exact ⟨fun hf => Bool.noConfusion hf,
          fun _ => ⟨by simp_all, _, by assumption, rfl⟩⟩

/-- A settle request whose `validBefore` is `2^63`: it passes every
verify stage (`ParseUint(…, 10, 64)` accepts anything below `2^64`, and
`maxTimeoutSeconds = 0` skips the window bound). -/
def wrapSettleRequest : SettleRequest :=
  { paymentPayload :=
      { x402Version := 1, scheme := "exact", network := .base
        payload := { signature := happySig
                     authorization := { happyAuth with
                       validAfter := "0", validBefore := "9223372036854775808" } } }
    paymentRequirements :=
      { baseMainnetRequest.paymentRequirements with maxTimeoutSeconds := 0 } }

/-- Observations under which the settle pipeline succeeds end to end. -/
def wrapSettleEnv : SettleEnv :=
  { venv := happyEnv
    broadcast := fun _ => .ok "0xaaaaaaaaaaaaaaaaaaaaaaaaaaaaaaaaaaaaaaaaaaaaaaaaaaaaaaaaaaaaaaaa"
    waitMined := .ok 1 }

/-- C2's failing input evaluated: the settle succeeds and inserts the
`(from, nonce)` entry, but because `Provider.Settle` narrows the parsed
`validBefore` through `(*big.Int).Int64()`, the stored expiry is
`2^63 − 2^64 + 3600 = 3600 − 2^63` — not `validBefore + 3600` as both
the claim and `MarkNonceUsed`'s own comment state. -/
theorem C2_settle_expiry_wraps :
    (ProviderSettle wrapSettleEnv [] wrapSettleRequest).resp.success = true ∧
    (ProviderSettle wrapSettleEnv [] wrapSettleRequest).store =
      [("0x1111111111111111111111111111111111111111:0x0101010101010101010101010101010101010101010101010101010101010101",
        { firstSeen := 1700000000, expiresAt := 3600 - 2 ^ 63 })] ∧
    parseBigInt "9223372036854775808" = some (2 ^ 63) ∧
    (3600 - 2 ^ 63 : Int) ≠ 2 ^ 63 + 3600 := by
  refine ⟨by decide, ?_, by decide, by decide⟩
  decide

/-! ### Claim C10 -/

/-- C10: `Provider.Settle` performs no length check on the authorization
nonce.  For every settle request whose nonce field is valid hex of any
even length, the nonce-parsing stage never rejects, and whenever the
pipeline reaches the broadcast it passes the decoded bytes copied into a
32-byte array — zero-padded on the right when shorter than 32 bytes and
truncated when longer. -/
theorem C10_settle_nonce_pad_truncate (env : SettleEnv) (store : NonceStore)
    (req : SettleRequest) (bytes : List Nat)
    (hnonce : hexDecode (trim0x req.paymentPayload.payload.authorization.nonce) = some bytes) :
    (ProviderSettle env store req).resp.error ≠ some .invalidNonceHex ∧
    (∀ args, (ProviderSettle env store req).broadcastCall = some args →
      args.nonce32 = bytes.take 32 ++ List.replicate (32 - bytes.length) 0) := by
  unfold ProviderSettle
  dsimp only
  rcases ProviderVerify env.venv store ⟨req.paymentPayload, req.paymentRequirements⟩
    with ⟨res, st⟩
  cases res with
  | error e => exact ⟨by simp, fun args harg => Option.noConfusion harg⟩
  | ok vr =>
    dsimp only
    split
    · exact ⟨by simp, fun args harg => Option.noConfusion harg⟩
    · rw [hnonce]
      dsimp only
      repeat' split
      all_goals refine ⟨by simp, fun args harg => ?_⟩
      all_goals
        first
        | exact Option.noConfusion harg
        | (injection harg with harg2; subst harg2; rfl)

/-- A settle request with a five-byte nonce `0xdeadbeef01`. -/
def shortNonceRequest : SettleRequest :=
  { paymentPayload :=
      { x402Version := 1, scheme := "exact", network := .base
        payload := { signature := happySig
                     authorization := { happyAuth with nonce := "0xdeadbeef01" } } }
    paymentRequirements := baseMainnetRequest.paymentRequirements }

/-- End-to-end observations for the short-nonce settle. -/
def shortNonceEnv : SettleEnv :=
  { venv := happyEnv
    broadcast := fun _ => .ok "0xbbbbbbbbbbbbbbbbbbbbbbbbbbbbbbbbbbbbbbbbbbbbbbbbbbbbbbbbbbbbbbbb"
    waitMined := .ok 1 }

/-- Witness for C10: the five-byte nonce is not rejected, and the
broadcast receives it zero-padded on the right to 32 bytes. -/
theorem C10_witness :
    (ProviderSettle shortNonceEnv [] shortNonceRequest).resp.error ≠
      some .invalidNonceHex ∧
    (∀ args, (ProviderSettle shortNonceEnv [] shortNonceRequest).broadcastCall = some args →
      args.nonce32 = [222, 173, 190, 239, 1].take 32 ++
        List.replicate (32 - [222, 173, 190, 239, 1].length) 0) :=
  C10_settle_nonce_pad_truncate shortNonceEnv [] shortNonceRequest
    [222, 173, 190, 239, 1] (by decide)
